import Mathlib

/-
Verification development for a behave/Playwright end-to-end test framework.

The framework is thin glue: step definitions drive page objects which forward
calls to a Playwright page. We embed it shallowly:
  - effects on the browser/page are recorded as traces of actions
    (PageAction for page-level calls, ResAction for process-level resources);
  - reads from the page (text_content) are modelled by a function
    String -> Option String giving each selector its text, none for a
    missing element (Python None);
  - the process environment is a function String -> Option String;
  - Python int(...) is modelled by pyInt, including its ValueError message;
  - Python string truthiness (empty string is falsy) and the substring
    operator `in` are modelled explicitly.
-/

/-- The process environment: variable name to optional value. -/
def Env : Type := String → Option String

/-- Text content of the page under test: selector to optional element text
(none models a Python None from page.text_content). -/
def PageText : Type := String → Option String

/-- One call made on a Playwright page handle. -/
inductive PageAction where
  | goto (url : String)
  | waitForLoadState (state : String)
  | click (selector : String)
  | fill (selector : String) (value : String)
  | waitForSelector (selector : String) (state : String) (timeout : Option Nat)
  | screenshot (path : String)
  | setDefaultTimeout (ms : Nat)
  | closePage
  deriving DecidableEq, Repr

/-- One process-level resource operation of the browser manager. -/
inductive ResAction where
  | startDriver (id : Nat)
  | launch (id : Nat) (kind : String) (headless : Bool) (slowMo : Int)
  | closeBrowser (id : Nat)
  | stopDriver (id : Nat)
  deriving DecidableEq, Repr

/-
Python int(). features/support/config.py calls int() on environment values;
a malformed value raises ValueError("invalid literal for int() with base 10:
...") at load time. We model decimal literals: optional surrounding
whitespace, optional sign, digits with single underscores allowed only
between digits (unicode digits and non-decimal bases are out of scope).
-/

/-- Checks the characters after the first digit of a Python decimal literal:
digits, with each underscore followed by a digit. -/
def pyDigitsRest : List Char → Bool
  | [] => true
  | '_' :: c :: cs => c.isDigit && pyDigitsRest cs
  | c :: cs => c.isDigit && pyDigitsRest cs

/-- Checks a nonempty Python digit run: first char a digit, rest per
pyDigitsRest (no leading, trailing or doubled underscore). -/
def pyDigitsOk : List Char → Bool
  | [] => false
  | c :: cs => c.isDigit && pyDigitsRest cs

/-- Numeric value of a digit run, skipping underscores. -/
def digitsValue (cs : List Char) : Nat :=
  cs.foldl (fun a c => if c.isDigit then a * 10 + (c.toNat - 48) else a) 0

/-- Surrounding-whitespace stripping, as int() applies to its argument. -/
def pyStripChars (cs : List Char) : List Char :=
  ((cs.dropWhile Char.isWhitespace).reverse.dropWhile Char.isWhitespace).reverse

/-- Sign and digit run of a stripped Python integer literal. -/
def pyIntCore (s : String) : Int × List Char :=
  match pyStripChars s.data with
  | '+' :: rest => (1, rest)
  | '-' :: rest => (-1, rest)
  | cs => (1, cs)

/-- Python int(s) on a string: the parsed integer, or the ValueError message
naming the offending string. -/
def pyInt (s : String) : Except String Int :=
  if pyDigitsOk (pyIntCore s).2 then
    Except.ok ((pyIntCore s).1 * (digitsValue (pyIntCore s).2 : Int))
  else
    Except.error ("invalid literal for int() with base 10: \x27" ++ s ++ "\x27")

/-- Python str.lower() for the ASCII range. -/
def pyLowerChar (c : Char) : Char :=
  if 'A' ≤ c && c ≤ 'Z' then Char.ofNat (c.toNat + 32) else c

/-- Python str.lower() on a string (ASCII range). -/
def pyLower (s : String) : String :=
  ⟨s.data.map pyLowerChar⟩

/-- Python `needle in haystack` on strings: substring containment. -/
def pyInStr (needle haystack : String) : Bool :=
  decide (needle.data <:+: haystack.data)

/-
features/support/config.py: class Config(BaseModel) with field defaults
computed from the environment at class definition time, in source order.
int() on SLOW_MO and TIMEOUT can raise, so loading is fallible.
-/

/-- The Config record of features/support/config.py. -/
structure Config where
  browser_name : String
  headless : Bool
  slow_mo : Int
  base_url : String
  timeout : Int
  test_username : String
  test_password : String
  deriving DecidableEq, Repr

/-- Loading Config from the environment, evaluating fields in source order;
the first int() failure propagates as the error, as in Python. -/
def Config.load (env : Env) : Except String Config :=
  match pyInt ((env "SLOW_MO").getD "0") with
  | Except.error e => Except.error e
  | Except.ok slow_mo =>
      match pyInt ((env "TIMEOUT").getD "30000") with
      | Except.error e => Except.error e
      | Except.ok timeout =>
          Except.ok ⟨(env "BROWSER").getD "chromium",
            pyLower ((env "HEADLESS").getD "false") == "true",
            slow_mo,
            (env "BASE_URL").getD "https://example.com",
            timeout,
            (env "TEST_USERNAME").getD "testuser",
            (env "TEST_PASSWORD").getD "testpass"⟩

/-
config/settings.py: module-level constants and get_base_url.
-/

/-- settings.ENVIRONMENT = os.getenv("TEST_ENV", "dev"). -/
def ENVIRONMENT (env : Env) : String :=
  (env "TEST_ENV").getD "dev"

/-- settings.BASE_URLS. -/
def BASE_URLS : List (String × String) :=
  [("dev", "https://dev.example.com"),
   ("staging", "https://staging.example.com"),
   ("prod", "https://example.com")]

/-- dict.get(key, default) on an association list. -/
def dictGetD (m : List (String × String)) (k d : String) : String :=
  match m.find? (fun p => p.1 = k) with
  | some p => p.2
  | none => d

/-- settings.get_base_url(environment): `env = environment or ENVIRONMENT`
(Python `or`: None and the empty string are falsy), then
`BASE_URLS.get(env, BASE_URLS["dev"])`. -/
def get_base_url (env : Env) (environment : Option String) : String :=
  let e :=
    match environment with
    | some s => if s = "" then ENVIRONMENT env else s
    | none => ENVIRONMENT env
  dictGetD BASE_URLS e "https://dev.example.com"

/-- settings.BROWSER_CONFIG["slow_mo"] = int(os.getenv("SLOW_MO", "0")). -/
def BROWSER_CONFIG_slow_mo (env : Env) : Except String Int :=
  pyInt ((env "SLOW_MO").getD "0")

/-
features/support/page_objects/base_page.py: each method forwards to the
bound page. Effectful methods are traces; get_text is a read.
-/

/-- BasePage.navigate_to: self.page.goto(url). -/
def BasePage.navigate_to (url : String) : List PageAction :=
  [PageAction.goto url]

/-- BasePage.wait_for_load_state with default state "networkidle". -/
def BasePage.wait_for_load_state (state : String := "networkidle") : List PageAction :=
  [PageAction.waitForLoadState state]

/-- BasePage.click. -/
def BasePage.click (selector : String) : List PageAction :=
  [PageAction.click selector]

/-- BasePage.fill. -/
def BasePage.fill (selector value : String) : List PageAction :=
  [PageAction.fill selector value]

/-- BasePage.wait_for_selector: page.wait_for_selector(selector,
timeout=timeout); the Playwright default state is "visible". -/
def BasePage.wait_for_selector (selector : String) (timeout : Option Nat) : List PageAction :=
  [PageAction.waitForSelector selector "visible" timeout]

/-- BasePage.get_text: `self.page.text_content(selector) or ""`. -/
def BasePage.get_text (pageText : PageText) (selector : String) : String :=
  (pageText selector).getD ""

/-
features/support/page_objects/login_page.py.
-/

/-- LoginPage.USERNAME_INPUT. -/
def LoginPage.USERNAME_INPUT : String := "#username"

/-- LoginPage.PASSWORD_INPUT. -/
def LoginPage.PASSWORD_INPUT : String := "#password"

/-- LoginPage.LOGIN_BUTTON. -/
def LoginPage.LOGIN_BUTTON : String := "#login-button"

/-- LoginPage.ERROR_MESSAGE. -/
def LoginPage.ERROR_MESSAGE : String := ".error-message"

/-- LoginPage.login: fill username, fill password, click the login button. -/
def LoginPage.login (username password : String) : List PageAction :=
  BasePage.fill LoginPage.USERNAME_INPUT username ++
  BasePage.fill LoginPage.PASSWORD_INPUT password ++
  BasePage.click LoginPage.LOGIN_BUTTON

/-- LoginPage.get_error_message: get_text on the error-message locator. -/
def LoginPage.get_error_message (pageText : PageText) : String :=
  BasePage.get_text pageText LoginPage.ERROR_MESSAGE

/-
features/support/page_objects/dashboard_page.py.
-/

/-- DashboardPage.LOAD_DATA_BUTTON. -/
def DashboardPage.LOAD_DATA_BUTTON : String := "button:has-text(\x27Load Data\x27)"

/-- DashboardPage.LOADING_SPINNER. -/
def DashboardPage.LOADING_SPINNER : String := ".loading-spinner"

/-- DashboardPage.load_data: click the load button, wait for the spinner
with timeout 5000 (default state "visible"), then wait for the spinner with
state "hidden" and timeout 30000. -/
def DashboardPage.load_data : List PageAction :=
  BasePage.click DashboardPage.LOAD_DATA_BUTTON ++
  BasePage.wait_for_selector DashboardPage.LOADING_SPINNER (some 5000) ++
  [PageAction.waitForSelector DashboardPage.LOADING_SPINNER "hidden" (some 30000)]

/-
features/support/browser_manager.py. Handles are identified by allocation
ids drawn from a counter threaded through launches, so identity-equality of
Python objects is id-equality here. close_all does not reset the cached
fields; the returned manager is the input unchanged, exactly as the source
leaves self.browser and self.playwright set.
-/

/-- The BrowserManager state: cached driver and browser handles plus the
Config built in __init__. -/
structure BrowserManager where
  playwright : Option Nat
  browser : Option Nat
  config : Config
  deriving DecidableEq, Repr

/-- BrowserManager.__init__: no driver, no browser. -/
def BrowserManager.init (cfg : Config) : BrowserManager :=
  ⟨none, none, cfg⟩

/-- BrowserManager.get_browser: return the cached browser if present,
otherwise start the driver and launch a browser with the configured kind,
headless flag and slow_mo, caching both. Returns the handle, the new state,
the advanced allocator and the resource actions performed. -/
def BrowserManager.get_browser (m : BrowserManager) (ctr : Nat) :
    Nat × BrowserManager × Nat × List ResAction :=
  match m.browser with
  | some b => (b, m, ctr, [])
  | none =>
      let pw := ctr
      let b := ctr + 1
      (b, { m with playwright := some pw, browser := some b }, ctr + 2,
        [ResAction.startDriver pw,
         ResAction.launch b m.config.browser_name m.config.headless m.config.slow_mo])

/-- BrowserManager.close_all: close the browser if set, stop the driver if
set. The fields are not cleared, so the state is returned unchanged. -/
def BrowserManager.close_all (m : BrowserManager) : BrowserManager × List ResAction :=
  (m,
    (match m.browser with
     | some b => [ResAction.closeBrowser b]
     | none => []) ++
    (match m.playwright with
     | some p => [ResAction.stopDriver p]
     | none => []))

/-- Iterated get_browser: n successive calls, collecting the returned
handles and the concatenated resource actions. -/
def BrowserManager.get_browser_iter (m : BrowserManager) (ctr : Nat) :
    Nat → List Nat × BrowserManager × Nat × List ResAction
  | 0 => ([], m, ctr, [])
  | n + 1 =>
      let r1 := BrowserManager.get_browser m ctr
      let rest := BrowserManager.get_browser_iter r1.2.1 r1.2.2.1 n
      (r1.1 :: rest.1, rest.2.1, rest.2.2.1, r1.2.2.2 ++ rest.2.2.2)

/-- Number of browser launches in a resource trace. -/
def countLaunches (as : List ResAction) : Nat :=
  as.countP (fun a =>
    match a with
    | ResAction.launch _ _ _ _ => true
    | _ => false)

/-
features/environment.py lifecycle hooks.
-/

/-- The page-level setup that before_scenario applies to the freshly opened
page: a hard-coded set_default_timeout(30000). The Config is taken as an
argument to show it is not consulted. -/
def before_scenario (_cfg : Config) : List PageAction :=
  [PageAction.setDefaultTimeout 30000]

/-- Python scenario.name.replace(" ", "_"): every space becomes an
underscore. -/
def pyReplaceSpace (s : String) : String :=
  ⟨s.data.map (fun c => if c = ' ' then '_' else c)⟩

/-- after_scenario: on status "failed", screenshot to
screenshots/<name with spaces replaced>.png, then (whenever the context has
a page) close the page. -/
def after_scenario (scenarioName status : String) (hasPage : Bool) : List PageAction :=
  (if status = "failed" then
    [PageAction.screenshot ("screenshots/" ++ pyReplaceSpace scenarioName ++ ".png")]
  else []) ++
  (if hasPage then [PageAction.closePage] else [])

/-
Step definitions. The behave context is modelled by ScenCtx: the configured
base_url, whether context.login_page has been set (only the bare phrase
"I am on the login page" sets it), and the trace of page calls so far.
A step returns the updated context and an optional error message (a Python
exception or a failed assert); runSteps stops at the first error, as behave
aborts the scenario there.
-/

/-- The per-scenario behave context. -/
structure ScenCtx where
  base_url : String
  hasLoginPage : Bool
  trace : List PageAction
  deriving DecidableEq, Repr

/-- The step phrases relevant to the login scenarios. -/
inductive Step where
  | iAmOnThePage (page_name : String)
  | iAmOnTheLoginPage
  | iEnterUsernameAndPassword (username password : String)
  | iClickTheLoginButton
  | iShouldSeeAnErrorMessage (expected : String)

/-- The AttributeError behave raises when a step reads context.login_page
before any step has set it. -/
def attributeErrorLoginPage : String :=
  "AttributeError: \x27Context\x27 object has no attribute \x27login_page\x27"

/-- common_steps url_map: {"login": base_url + "/login", "dashboard":
base_url + "/dashboard", "home": base_url}. -/
def url_map (base_url k : String) : Option String :=
  if k = "login" then some (base_url ++ "/login")
  else if k = "dashboard" then some (base_url ++ "/dashboard")
  else if k = "home" then some base_url
  else none

/-- login_steps step_verify_error_message: read the error message from the
page and assert substring containment, with the f-string assertion message
on failure. -/
def step_verify_error_message (pageText : PageText) (error_message : String) :
    Except String Unit :=
  let actual_error := LoginPage.get_error_message pageText
  if pyInStr error_message actual_error then Except.ok ()
  else Except.error ("Expected error \x27" ++ error_message ++
    "\x27 not found in \x27" ++ actual_error ++ "\x27")

/-- Dispatch of one step phrase against the step definitions. -/
def runStep (pageText : PageText) (ctx : ScenCtx) : Step → ScenCtx × Option String
  | Step.iAmOnThePage page_name =>
      let url := (url_map ctx.base_url (pyLower page_name)).getD ctx.base_url
      ({ ctx with trace := ctx.trace ++ BasePage.navigate_to url ++
          BasePage.wait_for_load_state }, none)
  | Step.iAmOnTheLoginPage =>
      ({ ctx with
          hasLoginPage := true
          trace := ctx.trace ++ BasePage.navigate_to (ctx.base_url ++ "/login") }, none)
  | Step.iEnterUsernameAndPassword u p =>
      if ctx.hasLoginPage then
        ({ ctx with trace := ctx.trace ++ LoginPage.login u p }, none)
      else (ctx, some attributeErrorLoginPage)
  | Step.iClickTheLoginButton =>
      if ctx.hasLoginPage then
        ({ ctx with trace := ctx.trace ++ BasePage.click LoginPage.LOGIN_BUTTON }, none)
      else (ctx, some attributeErrorLoginPage)
  | Step.iShouldSeeAnErrorMessage expected =>
      if ctx.hasLoginPage then
        match step_verify_error_message pageText expected with
        | Except.ok _ => (ctx, none)
        | Except.error e => (ctx, some e)
      else (ctx, some attributeErrorLoginPage)

/-- Run a list of steps, stopping at the first error as behave does. -/
def runSteps (pageText : PageText) (ctx : ScenCtx) : List Step → ScenCtx × Option String
  | [] => (ctx, none)
  | s :: ss =>
      match runStep pageText ctx s with
      | (c, none) => runSteps pageText c ss
      | (c, some e) => (c, some e)

/-- A page whose selectors all have no element: text_content returns None
everywhere. -/
def emptyPage : PageText := fun _ => none

/-- The Config produced by an empty environment: every field its default. -/
def cfgDefault : Config :=
  ⟨"chromium", false, 0, "https://example.com", 30000, "testuser", "testpass"⟩

/-- A page with text only under the selector "#present". -/
def pageC9 : PageText :=
  fun sel => if sel = "#present" then some "hello" else none

/-- An environment whose SLOW_MO value is not an integer. -/
def envMalformedSlowMo : Env :=
  fun k => if k = "SLOW_MO" then some "abc" else none

/-- An environment setting TIMEOUT to 5000. -/
def envTimeout5000 : Env :=
  fun k => if k = "TIMEOUT" then some "5000" else none

/-- The Config loaded from envTimeout5000. -/
def cfgTimeout5000 : Config :=
  ⟨"chromium", false, 0, "https://example.com", 5000, "testuser", "testpass"⟩

/-- An environment with TEST_ENV=staging. -/
def envTestEnvStaging : Env :=
  fun k => if k = "TEST_ENV" then some "staging" else none

/-- A login page whose error-message element reads "Invalid credentials". -/
def pageErrEq : PageText :=
  fun sel => if sel = ".error-message" then some "Invalid credentials" else none

/-- A login page whose error-message element reads "Invalid credentials
provided". -/
def pageErrSuper : PageText :=
  fun sel => if sel = ".error-message" then some "Invalid credentials provided" else none

/-- A login page whose error-message element reads "Login failed". -/
def pageErrOther : PageText :=
  fun sel => if sel = ".error-message" then some "Login failed" else none

/-- The BrowserManager state right after the first get_browser of a run
started at allocator 0. -/
def managerAfterGet : BrowserManager :=
  (BrowserManager.get_browser (BrowserManager.init cfgDefault) 0).2.1

/-- An empty environment: no variable set. -/
def envEmpty : Env := fun _ => none

/-- C8: DashboardPage.load_data performs exactly three operations in order:
click the load-data button, wait for the loading spinner to be visible with
the short timeout 5000 ms, wait for the loading spinner to be hidden with
the long timeout 30000 ms; nothing else and no retry. -/
theorem c8_load_data_sequence :
    DashboardPage.load_data =
      [PageAction.click DashboardPage.LOAD_DATA_BUTTON,
       PageAction.waitForSelector DashboardPage.LOADING_SPINNER "visible" (some 5000),
       PageAction.waitForSelector DashboardPage.LOADING_SPINNER "hidden" (some 30000)] :=
  rfl

/-- C9: BasePage.get_text always yields a string: when text_content returns
None for the selector it yields the empty string, and when text_content
returns a string it yields that string. -/
theorem c9_get_text_total (pageText : PageText) (selector : String) :
    (pageText selector = none → BasePage.get_text pageText selector = "") ∧
    ∀ s, pageText selector = some s → BasePage.get_text pageText selector = s := by
  constructor
  · intro h
    simp [BasePage.get_text, h]
  · intro s h
    simp [BasePage.get_text, h]

/-- C9 witness: on a concrete page, a selector without an element gives ""
and a selector with text "hello" gives "hello". -/
theorem c9_get_text_total_witness :
    BasePage.get_text pageC9 "#absent" = "" ∧
    BasePage.get_text pageC9 "#present" = "hello" :=
  ⟨(c9_get_text_total pageC9 "#absent").1 rfl,
   (c9_get_text_total pageC9 "#present").2 "hello" rfl⟩

/-- C6: for a failed scenario, after_scenario first takes a screenshot at
screenshots/<scenario name with spaces replaced by underscores>.png and then
closes the page; for every status the page is closed (before_scenario always
sets context.page, so hasPage is true for scenarios that ran); the name
"Login with valid credentials" maps to Login_with_valid_credentials. -/
theorem c6_after_scenario_teardown (name status : String) :
    after_scenario name "failed" true =
      [PageAction.screenshot ("screenshots/" ++ pyReplaceSpace name ++ ".png"),
       PageAction.closePage] ∧
    PageAction.closePage ∈ after_scenario name status true ∧
    pyReplaceSpace "Login with valid credentials" = "Login_with_valid_credentials" := by
  refine ⟨rfl, ?_, by decide⟩
  by_cases h : status = "failed" <;> simp [after_scenario, h]

/-- C2 counterexample: after one get_browser, close_all has not cleared the
cached handles, so a second close_all re-issues close() on the browser and
stop() on the driver; across the two calls the browser handle is closed
twice, refuting that the second call performs no duplicate close/stop. -/
theorem c2_close_all_counterexample :
    (BrowserManager.close_all managerAfterGet).2 =
      [ResAction.closeBrowser 1, ResAction.stopDriver 0] ∧
    (BrowserManager.close_all (BrowserManager.close_all managerAfterGet).1).2 =
      [ResAction.closeBrowser 1, ResAction.stopDriver 0] := by
  exact ⟨rfl, rfl⟩

/-- C2 amended: close_all on a manager that never acquired anything performs
no release action and raises no error; but close_all leaves the manager
state unchanged (the cached handles are not cleared), so a second call
re-issues exactly the same close/stop calls as the first instead of none. -/
theorem c2_close_all_not_idempotent (cfg : Config) (m : BrowserManager) :
    (BrowserManager.close_all (BrowserManager.init cfg)).2 = [] ∧
    (BrowserManager.close_all m).1 = m ∧
    (BrowserManager.close_all (BrowserManager.close_all m).1).2 =
      (BrowserManager.close_all m).2 :=
  ⟨rfl, rfl, rfl⟩

/-- C3 counterexample: with TIMEOUT=5000 the loaded Config has timeout 5000,
yet before_scenario applies set_default_timeout(30000) to the new page and
never applies the configured 5000. -/
theorem c3_timeout_counterexample :
    Config.load envTimeout5000 = Except.ok cfgTimeout5000 ∧
    cfgTimeout5000.timeout = 5000 ∧
    before_scenario cfgTimeout5000 = [PageAction.setDefaultTimeout 30000] ∧
    PageAction.setDefaultTimeout 5000 ∉ before_scenario cfgTimeout5000 := by
  refine ⟨rfl, rfl, rfl, by decide⟩

/-- C3 amended: before_scenario applies a hard-coded 30000 ms default
timeout to the new page regardless of the configuration; this coincides with
the configured timeout exactly when TIMEOUT is unset, whose default parses
to 30000. -/
theorem c3_fixed_default_timeout (cfg : Config) (env : Env) (c : Config) :
    before_scenario cfg = [PageAction.setDefaultTimeout 30000] ∧
    (env "TIMEOUT" = none → Config.load env = Except.ok c → c.timeout = 30000) := by
  refine ⟨rfl, ?_⟩
  intro h hc
  unfold Config.load at hc
  rw [h] at hc
  rw [show (Option.getD (none : Option String) "30000") = "30000" from rfl] at hc
  rw [show pyInt "30000" = Except.ok 30000 from rfl] at hc
  split at hc
  · exact Except.noConfusion hc
  · injection hc with h2
    subst h2
    rfl

/-- C3 witness: with no environment variables set, the loaded configuration
has timeout 30000 and before_scenario applies exactly that value. -/
theorem c3_fixed_default_timeout_witness :
    before_scenario cfgDefault = [PageAction.setDefaultTimeout 30000] ∧
    cfgDefault.timeout = 30000 :=
  ⟨(c3_fixed_default_timeout cfgDefault envEmpty cfgDefault).1,
   (c3_fixed_default_timeout cfgDefault envEmpty cfgDefault).2 rfl rfl⟩

/-- C1 counterexample: executing the quoted phrase then the credential and
click steps makes the credential step raise on the unset context.login_page
(only the bare phrase "I am on the login page" sets it), so the sequence
does not perform the three fill/fill/click interactions: no fill happens at
all. -/
theorem c1_quoted_login_counterexample :
    (runSteps emptyPage ⟨"https://example.com", false, []⟩
      [Step.iAmOnThePage "login",
       Step.iEnterUsernameAndPassword "alice" "secret",
       Step.iClickTheLoginButton]).2 = some attributeErrorLoginPage ∧
    PageAction.fill "#username" "alice" ∉
      (runSteps emptyPage ⟨"https://example.com", false, []⟩
        [Step.iAmOnThePage "login",
         Step.iEnterUsernameAndPassword "alice" "secret",
         Step.iClickTheLoginButton]).1.trace :=
  ⟨rfl, by decide⟩

/-- C1 amended: the quoted phrase resolves base_url ++ "/login", navigates
and waits for network-idle, but the following credential step fails on the
unset context.login_page, performing no interaction; starting instead from
the bare phrase (which navigates without the load-state wait and sets
context.login_page), the credential step performs fill username, fill
password and a click of the login button, and the click step performs a
fourth interaction: a second click of the login button. -/
theorem c1_login_scenario_traces (pageText : PageText) (base u p : String) :
    runSteps pageText ⟨base, false, []⟩
      [Step.iAmOnThePage "login",
       Step.iEnterUsernameAndPassword u p,
       Step.iClickTheLoginButton] =
      (⟨base, false, [PageAction.goto (base ++ "/login"),
        PageAction.waitForLoadState "networkidle"]⟩, some attributeErrorLoginPage) ∧
    runSteps pageText ⟨base, false, []⟩
      [Step.iAmOnTheLoginPage,
       Step.iEnterUsernameAndPassword u p,
       Step.iClickTheLoginButton] =
      (⟨base, true, [PageAction.goto (base ++ "/login"),
        PageAction.fill LoginPage.USERNAME_INPUT u,
        PageAction.fill LoginPage.PASSWORD_INPUT p,
        PageAction.click LoginPage.LOGIN_BUTTON,
        PageAction.click LoginPage.LOGIN_BUTTON]⟩, none) :=
  ⟨rfl, rfl⟩

/-- A cached browser is returned as-is: no launch, no state change. -/
theorem get_browser_cached (m : BrowserManager) (ctr b : Nat)
    (h : m.browser = some b) :
    BrowserManager.get_browser m ctr = (b, m, ctr, []) := by
  unfold BrowserManager.get_browser
  rw [h]

/-- Iterating get_browser on a manager with a cached browser returns that
handle every time and performs no resource action. -/
theorem get_browser_iter_cached (m : BrowserManager) (b : Nat)
    (h : m.browser = some b) :
    ∀ ctr n, BrowserManager.get_browser_iter m ctr n = (List.replicate n b, m, ctr, []) := by
  intro ctr n
  induction n generalizing ctr with
  | zero => rfl
  | succ k ih =>
      unfold BrowserManager.get_browser_iter
      rw [get_browser_cached m ctr b h]
      simp [ih, List.replicate]

/-- C4: within one run, n+1 successive get_browser calls return the handle
allocated by the first call every time and perform exactly one launch; a
fresh BrowserManager in a new run (the allocator having moved on) returns a
different handle. -/
theorem c4_single_browser_per_run (cfg : Config) (ctr n : Nat) :
    (BrowserManager.get_browser_iter (BrowserManager.init cfg) ctr (n + 1)).1 =
      List.replicate (n + 1) (ctr + 1) ∧
    countLaunches
      (BrowserManager.get_browser_iter (BrowserManager.init cfg) ctr (n + 1)).2.2.2 = 1 ∧
    (BrowserManager.get_browser (BrowserManager.init cfg)
        (BrowserManager.get_browser_iter (BrowserManager.init cfg) ctr (n + 1)).2.2.1).1 ≠
      ctr + 1 := by
  have hcache : (⟨some ctr, some (ctr + 1), cfg⟩ : BrowserManager).browser = some (ctr + 1) :=
    rfl
  have hiter : BrowserManager.get_browser_iter (BrowserManager.init cfg) ctr (n + 1) =
      ((ctr + 1) :: List.replicate n (ctr + 1),
       (⟨some ctr, some (ctr + 1), cfg⟩ : BrowserManager), ctr + 2,
       [ResAction.startDriver ctr,
        ResAction.launch (ctr + 1) cfg.browser_name cfg.headless cfg.slow_mo]) := by
    unfold BrowserManager.get_browser_iter
    rw [show BrowserManager.get_browser (BrowserManager.init cfg) ctr =
      (ctr + 1, (⟨some ctr, some (ctr + 1), cfg⟩ : BrowserManager), ctr + 2,
       [ResAction.startDriver ctr,
        ResAction.launch (ctr + 1) cfg.browser_name cfg.headless cfg.slow_mo]) from rfl]
    simp [get_browser_iter_cached _ _ hcache]
  rw [hiter]
  refine ⟨by simp [List.replicate], rfl, ?_⟩
  rw [show BrowserManager.get_browser (BrowserManager.init cfg) (ctr + 2) =
    (ctr + 3, (⟨some (ctr + 2), some (ctr + 3), cfg⟩ : BrowserManager), ctr + 4,
     [ResAction.startDriver (ctr + 2),
      ResAction.launch (ctr + 3) cfg.browser_name cfg.headless cfg.slow_mo]) from rfl]
  omega

/-- A rejected pyInt input yields exactly the ValueError message naming the
input. -/
theorem pyInt_error_message (s : String) (h : (pyInt s).isOk = false) :
    pyInt s =
      Except.error ("invalid literal for int() with base 10: \x27" ++ s ++ "\x27") := by
  unfold pyInt at h ⊢
  by_cases hc : pyDigitsOk (pyIntCore s).2 = true
  · rw [if_pos hc] at h
    simp [Except.isOk, Except.toBool] at h
  · rw [if_neg hc]

/-- An accepted pyInt input yields some integer. -/
theorem pyInt_isOk_exists (s : String) (h : (pyInt s).isOk = true) :
    ∃ v, pyInt s = Except.ok v := by
  cases hp : pyInt s with
  | error e => rw [hp] at h; simp [Except.isOk, Except.toBool] at h
  | ok v => exact ⟨v, rfl⟩

/-- C5: a malformed SLOW_MO makes both support Config loading and the
settings BROWSER_CONFIG slow_mo entry fail with the ValueError message
naming the offending value; a malformed TIMEOUT (with SLOW_MO well-formed)
likewise fails Config loading with the message naming it; and when both
numeric variables are well-formed, Config loading succeeds. No default is
ever substituted for a malformed value. -/
theorem c5_malformed_numeric_fail_fast (env : Env) :
    (∀ raw, env "SLOW_MO" = some raw → (pyInt raw).isOk = false →
      Config.load env =
        Except.error ("invalid literal for int() with base 10: \x27" ++ raw ++ "\x27") ∧
      BROWSER_CONFIG_slow_mo env =
        Except.error ("invalid literal for int() with base 10: \x27" ++ raw ++ "\x27")) ∧
    (∀ raw, env "TIMEOUT" = some raw → (pyInt ((env "SLOW_MO").getD "0")).isOk = true →
      (pyInt raw).isOk = false →
      Config.load env =
        Except.error ("invalid literal for int() with base 10: \x27" ++ raw ++ "\x27")) ∧
    ((pyInt ((env "SLOW_MO").getD "0")).isOk = true →
      (pyInt ((env "TIMEOUT").getD "30000")).isOk = true →
      (Config.load env).isOk = true) := by
  refine ⟨?_, ?_, ?_⟩
  · intro raw hraw hbad
    have hget : (env "SLOW_MO").getD "0" = raw := by rw [hraw]; rfl
    constructor
    · unfold Config.load
      rw [hget, pyInt_error_message raw hbad]
    · unfold BROWSER_CONFIG_slow_mo
      rw [hget, pyInt_error_message raw hbad]
  · intro raw hraw hok hbad
    obtain ⟨v, hv⟩ := pyInt_isOk_exists _ hok
    have hget : (env "TIMEOUT").getD "30000" = raw := by rw [hraw]; rfl
    unfold Config.load
    rw [hv, hget, pyInt_error_message raw hbad]
  · intro h1 h2
    obtain ⟨v, hv⟩ := pyInt_isOk_exists _ h1
    obtain ⟨w, hw⟩ := pyInt_isOk_exists _ h2
    unfold Config.load
    rw [hv, hw]
    rfl

/-- C5 witness: SLOW_MO=abc fails Config loading and the settings slow_mo
entry with the message naming abc; the empty environment loads fine. -/
theorem c5_malformed_numeric_fail_fast_witness :
    Config.load envMalformedSlowMo =
      Except.error ("invalid literal for int() with base 10: \x27" ++ "abc" ++ "\x27") ∧
    BROWSER_CONFIG_slow_mo envMalformedSlowMo =
      Except.error ("invalid literal for int() with base 10: \x27" ++ "abc" ++ "\x27") ∧
    (Config.load envEmpty).isOk = true :=
  ⟨((c5_malformed_numeric_fail_fast envMalformedSlowMo).1 "abc" rfl (by decide)).1,
   ((c5_malformed_numeric_fail_fast envMalformedSlowMo).1 "abc" rfl (by decide)).2,
   (c5_malformed_numeric_fail_fast envEmpty).2.2 (by decide) (by decide)⟩

/-- Substring containment holds when the haystack has the needle as a
middle segment. -/
theorem pyInStr_of_infix_data (n h : String) (hs : n.data <:+: h.data) :
    pyInStr n h = true := by
  simp [pyInStr, hs]

/-- Every string is a Python substring of itself. -/
theorem pyInStr_self (s : String) : pyInStr s s = true :=
  pyInStr_of_infix_data s s ⟨[], [], by simp⟩

/-- C7: the error-message assertion is substring matching on the login page
error locator text: equal text passes, strictly containing text passes, and
otherwise the step fails with the assertion message, which contains both the
expected and the actual string verbatim. -/
theorem c7_error_assertion_substring (pageText : PageText) (error_message : String) :
    (error_message = LoginPage.get_error_message pageText →
      step_verify_error_message pageText error_message = Except.ok ()) ∧
    (pyInStr error_message (LoginPage.get_error_message pageText) = true →
      step_verify_error_message pageText error_message = Except.ok ()) ∧
    (pyInStr error_message (LoginPage.get_error_message pageText) = false →
      step_verify_error_message pageText error_message =
        Except.error ("Expected error \x27" ++ error_message ++ "\x27 not found in \x27" ++
          LoginPage.get_error_message pageText ++ "\x27") ∧
      pyInStr error_message
        ("Expected error \x27" ++ error_message ++ "\x27 not found in \x27" ++
          LoginPage.get_error_message pageText ++ "\x27") = true ∧
      pyInStr (LoginPage.get_error_message pageText)
        ("Expected error \x27" ++ error_message ++ "\x27 not found in \x27" ++
          LoginPage.get_error_message pageText ++ "\x27") = true) := by
  refine ⟨?_, ?_, ?_⟩
  · intro h
    have hin : pyInStr error_message (LoginPage.get_error_message pageText) = true := by
      rw [h]
      exact pyInStr_self _
    simp [step_verify_error_message, hin]
  · intro h
    simp [step_verify_error_message, h]
  · intro h
    refine ⟨by simp [step_verify_error_message, h], ?_, ?_⟩
    · refine pyInStr_of_infix_data _ _ ?_
      refine ⟨"Expected error \x27".data,
        ("\x27 not found in \x27" ++ LoginPage.get_error_message pageText ++ "\x27").data, ?_⟩
      simp [String.data_append]
    · refine pyInStr_of_infix_data _ _ ?_
      refine ⟨("Expected error \x27" ++ error_message ++ "\x27 not found in \x27").data,
        "\x27".data, ?_⟩
      simp [String.data_append]

/-- C7 witness: exact text "Invalid credentials" passes, the strictly
containing text "Invalid credentials provided" passes, and "Login failed"
fails with the assertion message naming both strings. -/
theorem c7_error_assertion_substring_witness :
    step_verify_error_message pageErrEq "Invalid credentials" = Except.ok () ∧
    step_verify_error_message pageErrSuper "Invalid credentials" = Except.ok () ∧
    step_verify_error_message pageErrOther "Invalid credentials" =
      Except.error ("Expected error \x27" ++ "Invalid credentials" ++
        "\x27 not found in \x27" ++ LoginPage.get_error_message pageErrOther ++ "\x27") :=
  ⟨(c7_error_assertion_substring pageErrEq "Invalid credentials").1 rfl,
   (c7_error_assertion_substring pageErrSuper "Invalid credentials").2.1 (by decide),
   ((c7_error_assertion_substring pageErrOther "Invalid credentials").2.2 (by decide)).1⟩

/-- C10 counterexample: the empty string is not one of dev, staging, prod,
yet with TEST_ENV=staging get_base_url on the empty string returns the
staging URL rather than the dev URL, because the Python `or` treats the
empty string as falsy and falls back to ENVIRONMENT. -/
theorem c10_empty_string_counterexample :
    "" ∉ ["dev", "staging", "prod"] ∧
    get_base_url envTestEnvStaging (some "") = "https://staging.example.com" ∧
    get_base_url envTestEnvStaging (some "") ≠ "https://dev.example.com" := by
  refine ⟨by decide, rfl, by decide⟩

/-- C10 amended: get_base_url is total and raises nothing; every non-empty
string outside dev, staging, prod silently yields the dev URL; a missing or
empty-string argument instead falls back to ENVIRONMENT (TEST_ENV with
default dev), so with TEST_ENV unset both yield the dev URL. -/
theorem c10_unknown_env_defaults_dev (env : Env) (s : String) :
    (s ≠ "" → s ∉ ["dev", "staging", "prod"] →
      get_base_url env (some s) = "https://dev.example.com") ∧
    (env "TEST_ENV" = none →
      get_base_url env none = "https://dev.example.com" ∧
      get_base_url env (some "") = "https://dev.example.com") := by
  constructor
  · intro hne hmem
    simp only [List.mem_cons, List.not_mem_nil, or_false, not_or] at hmem
    obtain ⟨h1, h2, h3⟩ := hmem
    simp [get_base_url, dictGetD, BASE_URLS, List.find?, hne,
      Ne.symm h1, Ne.symm h2, Ne.symm h3]
  · intro h
    constructor <;>
      simp [get_base_url, ENVIRONMENT, h, dictGetD, BASE_URLS, List.find?]

/-- C10 witness: with nothing in the environment, the unknown name "qa" and
a missing argument both give the dev URL. -/
theorem c10_unknown_env_defaults_dev_witness :
    get_base_url envEmpty (some "qa") = "https://dev.example.com" ∧
    get_base_url envEmpty none = "https://dev.example.com" :=
  ⟨(c10_unknown_env_defaults_dev envEmpty "qa").1 (by decide) (by decide),
   ((c10_unknown_env_defaults_dev envEmpty "qa").2 rfl).1⟩
